import Mathlib

/-!
Verification of the Parameter Dependency & Range-Control Engine of the
SNR modelling program (snr.py).

The Python source is shallowly embedded: numeric widget values are
rationals (the float arithmetic of the source is idealised to exact
rational arithmetic), widget and `SNR.data` state is an explicit
structure, and each event handler of the source becomes a pure
state-transition function.  `math.floor(math.log10 v)` is `Int.log 10 v`,
Python `round` is round-half-to-even (`pyRound`), and the Python float
modulo is `pyMod` (result takes the sign of the divisor).
-/

namespace SNR

/-- Python `round`: round half to even, as applied to widget values. -/

def pyRound (q : ℚ) : ℤ :=
  let f := ⌊q⌋
  let frac := q - f
  if frac < 1/2 then f
  else if 1/2 < frac then f + 1
  else if f % 2 = 0 then f else f + 1

/-- Python float modulo: `a % b = a - b * floor(a / b)` (sign of divisor). -/
def pyMod (a b : ℚ) : ℚ := a - b * ⌊a / b⌋

/-- Step-size computation of `increment_xlimits` (snr.py lines 149-157):
`increment = max(10 ** (math.floor(math.log10(old_val))), 10)`, divided by
ten when `old_val == increment and increment != 10 and direction == -1`;
a `ValueError` from `log10` (non-positive value) yields `increment = 10`. -/
def computeIncrement (old_val : ℚ) (direction : ℤ) : ℚ :=
  if 0 < old_val then
    let increment := max ((10 : ℚ) ^ Int.log 10 old_val) 10
    if old_val = increment ∧ increment ≠ 10 ∧ direction = -1 then
      increment / 10
    else
      increment
  else
    10

/-- Step size as the specification words it: ten raised to the floor of
the base-ten logarithm of the current value, floored at a minimum step
of ten, defaulting to ten for a non-positive value; divided by ten when
the action is a decrement, the value exactly equals its step size, and
the step size is above the floor of ten. -/
def claimedStep (v : ℚ) (direction : ℤ) : ℚ :=
  let base := if 0 < v then max ((10 : ℚ) ^ Int.log 10 v) 10 else 10
  if direction = -1 ∧ v = base ∧ 10 < base then base / 10 else base

/-- The spinbox axes the range editor manages (`xmin`, `xmax`). -/
inductive Axis
  | xmin
  | xmax
  deriving DecidableEq, Repr

/-- The paired bound of an axis editor. -/
def Axis.other : Axis → Axis
  | .xmin => .xmax
  | .xmax => .xmin

/-- Values of the Plotted Time dropdown (snr.py lines 529-531): the named
presets plus Custom. -/
inductive RangeMode
  | currentR
  | reverseShockLifetime
  | edSt
  | pds
  | mcs
  | custom
  deriving DecidableEq, Repr

/-- State touched by `increment_xlimits`: the Plotted Time dropdown
(`SNR.data["range"]` and the widget, kept in sync by the source), the
displayed spinbox values (`value_var`), the configured spinbox
increments, the stored bounds `SNR.data["xmin"]`/`SNR.data["xmax"]`, the
`widget.previous` fields, and counters of replot (`display_plot`) and
recompute (`update_output`) requests. -/
structure XState where
  rangeMode : RangeMode
  xminVal : ℚ
  xmaxVal : ℚ
  xminInc : ℚ
  xmaxInc : ℚ
  xminData : ℚ
  xmaxData : ℚ
  xminPrev : ℤ
  xmaxPrev : ℤ
  replots : ℕ
  updates : ℕ
  deriving DecidableEq, Repr

/-- Displayed value of an axis spinbox (`widget.get_value()`). -/
def XState.val (st : XState) : Axis → ℚ
  | .xmin => st.xminVal
  | .xmax => st.xmaxVal

/-- Configured increment of an axis spinbox. -/
def XState.inc (st : XState) : Axis → ℚ
  | .xmin => st.xminInc
  | .xmax => st.xmaxInc

/-- Stored bound (`SNR.data[widget.identifier]`). -/
def XState.data (st : XState) : Axis → ℚ
  | .xmin => st.xminData
  | .xmax => st.xmaxData

/-- Stored `widget.previous` field. -/
def XState.prev (st : XState) : Axis → ℤ
  | .xmin => st.xminPrev
  | .xmax => st.xmaxPrev

/-- Update the displayed value of an axis spinbox (`value_var.set`). -/
def XState.setVal (st : XState) (ax : Axis) (q : ℚ) : XState :=
  match ax with
  | .xmin => { st with xminVal := q }
  | .xmax => { st with xmaxVal := q }

/-- Update the configured increment (`widget.input.config(increment=...)`). -/
def XState.setInc (st : XState) (ax : Axis) (q : ℚ) : XState :=
  match ax with
  | .xmin => { st with xminInc := q }
  | .xmax => { st with xmaxInc := q }

/-- Update the stored bound (`SNR.data[widget.identifier] = ...`). -/
def XState.setData (st : XState) (ax : Axis) (q : ℚ) : XState :=
  match ax with
  | .xmin => { st with xminData := q }
  | .xmax => { st with xmaxData := q }

/-- Update the stored `widget.previous` field. -/
def XState.setPrev (st : XState) (ax : Axis) (z : ℤ) : XState :=
  match ax with
  | .xmin => { st with xminPrev := z }
  | .xmax => { st with xmaxPrev := z }

/-- Upper bound configured on both spinboxes: `to=100000000`
(snr.py lines 532-535); read back by `widget.input.cget("to")`. -/
def spinboxMaximum : ℚ := 100000000

/-- Raw new value (snr.py line 162):
`new_val = old_val + direction * widget.input.cget("increment")`, where
`cget` returns the increment configured on line 158. -/
def rawNewVal (old_val : ℚ) (d : ℤ) : ℚ :=
  old_val + (d : ℚ) * computeIncrement old_val d

/-- Snap condition (snr.py line 163): the raw value is not a multiple of
the increment, and the edit is not an increment from the (rounded)
maximum. -/
def snapCond (old_val : ℚ) (d : ℤ) : Prop :=
  pyMod (rawNewVal old_val d) (computeIncrement old_val d) ≠ 0 ∧
    ¬(pyRound old_val = pyRound spinboxMaximum ∧ d = 1)

instance (old_val : ℚ) (d : ℤ) : Decidable (snapCond old_val d) := by
  unfold snapCond
  infer_instance

/-- Value after the snap of snr.py lines 163-169: floored to a multiple
of the increment for an increment, rounded up to one for a decrement. -/
def snappedVal (old_val : ℚ) (d : ℤ) : ℚ :=
  let increment := computeIncrement old_val d
  let raw := rawNewVal old_val d
  if snapCond old_val d then
    if d = 1 then (⌊raw / increment⌋ : ℚ) * increment
    else (⌈raw / increment⌉ : ℚ) * increment
  else raw

/-- Candidate new value after the clamp of snr.py lines 171-173. -/
def candidateNewVal (old_val : ℚ) (d : ℤ) : ℚ :=
  if snappedVal old_val d > spinboxMaximum then spinboxMaximum
  else snappedVal old_val d

/-- Commit guard of snr.py lines 174-175: the value is stored unless the
old value was zero and the edit a decrement, or the candidate equals one
of the currently displayed bound values. -/
def commitCond (old_val new_val : ℚ) (d : ℤ) (dispMin dispMax : ℚ) : Prop :=
  ¬(old_val = 0 ∧ d = -1) ∧ ¬(new_val = dispMin ∨ new_val = dispMax)

instance (old_val new_val : ℚ) (d : ℤ) (dispMin dispMax : ℚ) :
    Decidable (commitCond old_val new_val d dispMin dispMax) := by
  unfold commitCond
  infer_instance

/-- Lines 145-147 of snr.py: change the Plotted Time dropdown value to
Custom if it is not already set. -/
def forceCustom (st : XState) : XState :=
  if st.rangeMode ≠ RangeMode.custom then { st with rangeMode := RangeMode.custom }
  else st

/-- State after lines 145-158 of snr.py: dropdown forced to Custom and
the recomputed increment configured on the edited widget. -/
def configState (st0 : XState) (ax : Axis) (d : ℤ) : XState :=
  (forceCustom st0).setInc ax (computeIncrement ((forceCustom st0).val ax) d)

/-- State after lines 145-170 of snr.py: additionally, when a snap
occurred, line 170 rewrites the displayed widget value to
`new_val - direction * increment` (the spinbox applies its own
increment after the handler returns). -/
def displayState (st0 : XState) (ax : Axis) (d : ℤ) : XState :=
  let old_val := (forceCustom st0).val ax
  if snapCond old_val d then
    (configState st0 ax d).setVal ax
      (snappedVal old_val d - (d : ℚ) * computeIncrement old_val d)
  else configState st0 ax d

/-- The `increment_xlimits` handler (snr.py lines 135-183).  The
`direction` argument is `0` for a typed value, `1` for an arrow
increment and `-1` for an arrow decrement.  Lines 174-178 commit the
candidate value guarded by `commitCond` (reading the displayed bound
values after the possible line-170 rewrite), lines 179-181 store a
typed value directly, and line 183 requests a replot (`display_plot`)
on every path. -/
def increment_xlimits (st0 : XState) (ax : Axis) (d : ℤ) : XState :=
  let old_val := (forceCustom st0).val ax
  if d ≠ 0 then
    let st3 := displayState st0 ax d
    let new_val := candidateNewVal old_val d
    if commitCond old_val new_val d st3.xminVal st3.xmaxVal then
      let st4 := (st3.setData ax new_val).setPrev ax (pyRound new_val)
      { st4 with replots := st4.replots + 1 }
    else
      { st3 with replots := st3.replots + 1 }
  else
    let st3 := ((configState st0 ax d).setData ax old_val).setPrev ax (pyRound old_val)
    { st3 with replots := st3.replots + 1 }

/-- Exact-multiple relation, as the specification words it. -/
def isMultipleOf (a b : ℚ) : Prop := ∃ k : ℤ, a = (k : ℚ) * b

instance (a b : ℚ) : Decidable (isMultipleOf a b) :=
  decidable_of_iff (b = 0 ∧ a = 0 ∨ b ≠ 0 ∧ pyMod a b = 0) (by
    unfold isMultipleOf pyMod
    constructor
    · rintro (⟨hb, rfl⟩ | ⟨hb, h⟩)
      · exact ⟨0, by simp⟩
      · refine ⟨⌊a / b⌋, ?_⟩
        linarith
    · rintro ⟨k, hk⟩
      by_cases hb : b = 0
      · left
        exact ⟨hb, by simp [hk, hb]⟩
      · right
        refine ⟨hb, ?_⟩
        have hq : (k : ℚ) * b / b = (k : ℚ) := by
          field_simp
        rw [hk, hq, Int.floor_intCast]
        ring)

/-- Raw new value as the specification words it: old value plus or
minus the step size. -/
def claimedRaw (old : ℚ) (d : ℤ) : ℚ := old + (d : ℚ) * claimedStep old d

/-- Snapped value as the specification words it: if the raw value is
not an exact multiple of the (possibly updated) step it is snapped down
to the nearest multiple for an increment and up for a decrement, except
that snapping is suppressed when the old value is at the upper bound
and the action is an increment. -/
def claimedSnapped (old : ℚ) (d : ℤ) : ℚ :=
  if ¬ isMultipleOf (claimedRaw old d) (claimedStep old d) ∧
      ¬(old = spinboxMaximum ∧ d = 1) then
    if d = 1 then (⌊claimedRaw old d / claimedStep old d⌋ : ℚ) * claimedStep old d
    else (⌈claimedRaw old d / claimedStep old d⌉ : ℚ) * claimedStep old d
  else claimedRaw old d

/-- New value as the specification words it: the snapped value clamped
to the configured upper bound. -/
def claimedNewVal (old : ℚ) (d : ℤ) : ℚ :=
  if claimedSnapped old d > spinboxMaximum then spinboxMaximum
  else claimedSnapped old d

/-- Editor state with both bounds at a power-of-ten boundary, used to
evaluate the decrement-from-100 example of the specification. -/
def stepExampleState : XState :=
  { rangeMode := RangeMode.custom
    xminVal := 100, xmaxVal := 900
    xminInc := 10, xmaxInc := 100
    xminData := 100, xmaxData := 900
    xminPrev := 100, xmaxPrev := 900
    replots := 0, updates := 0 }

/-- Editor state with the Plotted Time dropdown on the named preset
Current, bounds 90 and 100, on which an arrow increment of the minimum
produces the value 100 equalling the maximum. -/
def c3State : XState :=
  { rangeMode := RangeMode.currentR
    xminVal := 90, xmaxVal := 100
    xminInc := 1, xmaxInc := 100
    xminData := 90, xmaxData := 100
    xminPrev := 90, xmaxPrev := 100
    replots := 0, updates := 0 }

/-- Editor state with bounds 90 and 100 and the dropdown already on
Custom; an arrow decrement of the maximum uses the halved step 10 and
lands exactly on the minimum, so it is rejected. -/
def c3wState : XState :=
  { rangeMode := RangeMode.custom
    xminVal := 90, xmaxVal := 100
    xminInc := 10, xmaxInc := 100
    xminData := 90, xmaxData := 100
    xminPrev := 90, xmaxPrev := 100
    replots := 0, updates := 0 }

/-- Editor state with minimum 95 and maximum 98; an arrow increment of
the minimum snaps 105 down to 100, which is unequal to both displayed
bounds and is committed, crossing above the maximum. -/
def c4State : XState :=
  { rangeMode := RangeMode.custom
    xminVal := 95, xmaxVal := 98
    xminInc := 10, xmaxInc := 100
    xminData := 95, xmaxData := 98
    xminPrev := 95, xmaxPrev := 98
    replots := 0, updates := 0 }

/-- Editor state with bounds 100 and 900 on which an arrow increment of
the minimum commits 200. -/
def c4wState : XState :=
  { rangeMode := RangeMode.custom
    xminVal := 100, xmaxVal := 900
    xminInc := 100, xmaxInc := 100
    xminData := 100, xmaxData := 900
    xminPrev := 100, xmaxPrev := 900
    replots := 0, updates := 0 }

/-- Editor state with the dropdown on the named preset PDS and bounds
90 and 100; an arrow increment of the minimum is rejected because the
candidate 100 equals the maximum. -/
def w10State : XState :=
  { rangeMode := RangeMode.pds
    xminVal := 90, xmaxVal := 100
    xminInc := 10, xmaxInc := 100
    xminData := 90, xmaxData := 100
    xminPrev := 90, xmaxPrev := 100
    replots := 0, updates := 0 }

/-! The ambient-index rule `s_change` (snr.py lines 59-95). -/

/-- Ejecta-index dropdown domain configured when `s = 0`
(snr.py line 77). -/
def nWideValues : List ℕ := [0, 2, 4, 6, 7, 8, 9, 10, 12, 14]

/-- Ejecta-index dropdown domain configured when `s` is nonzero
(snr.py line 90). -/
def nNarrowValues : List ℕ := [0, 1, 2, 7]

/-- State touched by `s_change`: the ambient-index value `s`, the
ejecta-index value `n` and its configured dropdown domain, visibility
of the wind parameters `m_w`/`v_w`, enablement of the three
model-variant radio buttons `lk`/`tw`/`wl`, the externally computed
condition `0.1 * t_c <= t_pds` consumed by the rule, and a log of the
`n` values observed by each `SNR.update_output()` call. -/
structure SState where
  s : ℕ
  n : ℕ
  nValues : List ℕ
  windVisible : Bool
  lkEnabled : Bool
  twEnabled : Bool
  wlEnabled : Bool
  tcCondition : Bool
  recomputeLog : List ℕ
  deriving DecidableEq, Repr

/-- The `s_change` handler (snr.py lines 59-95).  On `s = 0` the wind
parameters are hidden, the `lk` and `wl` variants are enabled, `tw` is
enabled only under the external transition-time condition, the wide
`n` domain is configured and `n = 1` is reset to 0; otherwise the wind
parameters are restored, the three variants are disabled, the narrow
domain is configured and an `n` outside it is reset to 0.  When
`update` is set, `SNR.update_output()` runs last; it is modelled by
logging the `n` value it observes. -/
def s_change (st : SState) (update : Bool) : SState :=
  let st1 :=
    if st.s = 0 then
      let a := { st with windVisible := false, lkEnabled := true, wlEnabled := true }
      let b := if st.tcCondition then { a with twEnabled := true } else a
      let c := { b with nValues := nWideValues }
      if c.n = 1 then { c with n := 0 } else c
    else
      let a := { st with windVisible := true, lkEnabled := false, twEnabled := false, wlEnabled := false }
      let b := { a with nValues := nNarrowValues }
      if b.n ∈ nNarrowValues then b else { b with n := 0 }
  if update then { st1 with recomputeLog := st1.recomputeLog ++ [st1.n] } else st1

/-- A user change of the ambient-index dropdown: the widget variable
takes the new value, then the `s_change` callback runs with an update. -/
def toggleS (st : SState) (newS : ℕ) : SState :=
  s_change { st with s := newS } true

/-- Zero-state with `s = 2` and `n = 4`, used to exercise the forced
reset of the ejecta index. -/
def c5wState : SState :=
  { s := 2, n := 4, nValues := [0, 2, 4, 6, 7, 8, 9, 10, 12, 14]
    windVisible := false, lkEnabled := true, twEnabled := false, wlEnabled := true
    tcCondition := false, recomputeLog := [] }

/-! The model-variant rule `model_change` (snr.py lines 186-234). -/

/-- The four model variants (snr.py line 20 and lines 504-506): `cf`
Standard, `lk` Fractional energy loss, `tw` Hot low-density media, `wl`
Cloudy ISM. -/
inductive ModelKind
  | cf
  | lk
  | tw
  | wl
  deriving DecidableEq, Repr

/-- Displayed content of the `t_tw` entry: a numeric value or the
sentinel string `N/A`. -/
inductive TtwDisplay
  | shown (q : ℚ)
  | na
  deriving DecidableEq, Repr

/-- State touched by `model_change`: the selected variant, visibility
of the fractional-loss group (`t_lk`, `gamma_0`, `eps`), enablement of
the `s` dropdown, the `t_tw` entry (enablement, visibility, displayed
content, and its `previous` last-valid value), visibility of `c_tau`,
and the recompute counter. -/
structure MState where
  model : ModelKind
  lkGroupVisible : Bool
  sEnabled : Bool
  ttwEnabled : Bool
  ttwVisible : Bool
  ttwDisplay : TtwDisplay
  ttwPrevious : ℚ
  ctauVisible : Bool
  updates : ℕ
  deriving DecidableEq, Repr

/-- The `model_change` handler (snr.py lines 186-234).  Lines 194-208
show the fractional-loss group only for `lk`; lines 210-213 make `s`
editable only for `cf`; lines 215-224 enable, revert and show `t_tw`
for `tw` and otherwise disable it, display `N/A` and hide it; lines
226-231 show `c_tau` only for `wl`; line 234 recomputes.

Modelled from the spec: `revert_value` lives in `snr_gui.py`, which is
not under src/; per the specification the end-time input is
force-reverted to its last externally-valid value, so it is modelled
as restoring the displayed content from the stored `previous` value. -/
def model_change (st : MState) (update : Bool) : MState :=
  let st1 := if st.model ≠ ModelKind.lk then { st with lkGroupVisible := false }
             else { st with lkGroupVisible := true }
  let st2 := if st.model = ModelKind.cf then { st1 with sEnabled := true }
             else { st1 with sEnabled := false }
  let st3 := if st.model = ModelKind.tw then
               { st2 with ttwEnabled := true, ttwDisplay := TtwDisplay.shown st.ttwPrevious, ttwVisible := true }
             else
               { st2 with ttwEnabled := false, ttwDisplay := TtwDisplay.na, ttwVisible := false }
  let st4 := if st.model = ModelKind.wl then { st3 with ctauVisible := true }
             else { st3 with ctauVisible := false }
  if update then { st4 with updates := st4.updates + 1 } else st4

/-- State with the hot-low-density variant selected and an end-time of
400000 both displayed and stored as the last valid value. -/
def c9wState : MState :=
  { model := ModelKind.tw
    lkGroupVisible := false, sEnabled := false
    ttwEnabled := true, ttwVisible := true
    ttwDisplay := TtwDisplay.shown 400000, ttwPrevious := 400000
    ctauVisible := false, updates := 0 }

/-! The abundance editor (snr.py lines 271-355 and the initialisation
in `__main__`, lines 450-461). -/

/-- The two abundance-table kinds (`ab_type` argument, "ISM" or
"Ejecta"). -/
inductive AbKind
  | ism
  | ejecta
  deriving DecidableEq, Repr

/-- Values of the `ab_type` dropdown and the session default-preset
globals: the four presets of the ABUNDANCE dictionary offered by the
editors, plus the Custom marker set by typing in an entry
(snr.py lines 297-298). -/
inductive AbPreset
  | lmc
  | solar
  | cc
  | typeIa
  | custom
  deriving DecidableEq, Repr

/-- Element values of a table over ELEMENT_ORDER =
[He, C, N, O, Ne, Mg, Si, S, Fe] (snr.py line 19). -/
def AbTable := List ℚ

instance : DecidableEq AbTable := by
  unfold AbTable
  infer_instance

instance : Repr AbTable := by
  unfold AbTable
  infer_instance

/-- ABUNDANCE preset values over ELEMENT_ORDER (snr.py lines 21-31),
as offered by `reset_ab`; the Custom marker is not a key of the
ABUNDANCE dictionary and yields no values. -/
def presetValues : AbPreset → Option AbTable
  | AbPreset.lmc => some [10.94, 8.04, 7.14, 8.35, 7.61, 7.47, 7.81, 6.70, 7.23]
  | AbPreset.solar => some [10.93, 8.52, 7.92, 8.83, 8.08, 7.58, 7.55, 7.33, 7.50]
  | AbPreset.cc => some [11.22, 9.25, 8.62, 9.69, 8.92, 8.30, 8.79, 8.54, 8.55]
  | AbPreset.typeIa => some [11.40, 12.60, 7.50, 12.91, 11.04, 11.55, 12.75, 12.43, 13.12]
  | AbPreset.custom => none

/-- Abundance-editor state: the `ab_window_open` registry (one flag per
kind, snr.py line 451), the number of live editor windows per kind,
a focus counter, the backing tables `SNR.data["abundance"]` and
`SNR.data["ej_abundance"]`, the working copies and `ab_type` dropdown
values of the open editors, the session default presets `ism_ab_type`
and `ej_ab_type`, and the recompute counter. -/
structure AbState where
  ismOpen : Bool
  ejOpen : Bool
  ismLive : ℕ
  ejLive : ℕ
  focusCount : ℕ
  ismTable : AbTable
  ejTable : AbTable
  ismWork : AbTable
  ejWork : AbTable
  ismWorkPreset : AbPreset
  ejWorkPreset : AbPreset
  ismDefaultPreset : AbPreset
  ejDefaultPreset : AbPreset
  updates : ℕ
  deriving DecidableEq, Repr

/-- Whether `ab_window_open[kind]` holds a window. -/
def AbState.isOpen (st : AbState) : AbKind → Bool
  | AbKind.ism => st.ismOpen
  | AbKind.ejecta => st.ejOpen

/-- Number of live (created, not destroyed) editor windows of a kind. -/
def AbState.live (st : AbState) : AbKind → ℕ
  | AbKind.ism => st.ismLive
  | AbKind.ejecta => st.ejLive

/-- Backing table of a kind. -/
def AbState.table (st : AbState) : AbKind → AbTable
  | AbKind.ism => st.ismTable
  | AbKind.ejecta => st.ejTable

/-- Working copy held by the open editor of a kind. -/
def AbState.work (st : AbState) : AbKind → AbTable
  | AbKind.ism => st.ismWork
  | AbKind.ejecta => st.ejWork

/-- Current `ab_type` dropdown value of the open editor of a kind. -/
def AbState.workPreset (st : AbState) : AbKind → AbPreset
  | AbKind.ism => st.ismWorkPreset
  | AbKind.ejecta => st.ejWorkPreset

/-- Session default preset of a kind (`ism_ab_type` / `ej_ab_type`). -/
def AbState.defaultPreset (st : AbState) : AbKind → AbPreset
  | AbKind.ism => st.ismDefaultPreset
  | AbKind.ejecta => st.ejDefaultPreset

def AbState.setOpen (st : AbState) (k : AbKind) (b : Bool) : AbState :=
  match k with
  | AbKind.ism => { st with ismOpen := b }
  | AbKind.ejecta => { st with ejOpen := b }

def AbState.setLive (st : AbState) (k : AbKind) (n : ℕ) : AbState :=
  match k with
  | AbKind.ism => { st with ismLive := n }
  | AbKind.ejecta => { st with ejLive := n }

def AbState.setTable (st : AbState) (k : AbKind) (t : AbTable) : AbState :=
  match k with
  | AbKind.ism => { st with ismTable := t }
  | AbKind.ejecta => { st with ejTable := t }

def AbState.setWork (st : AbState) (k : AbKind) (t : AbTable) : AbState :=
  match k with
  | AbKind.ism => { st with ismWork := t }
  | AbKind.ejecta => { st with ejWork := t }

def AbState.setWorkPreset (st : AbState) (k : AbKind) (p : AbPreset) : AbState :=
  match k with
  | AbKind.ism => { st with ismWorkPreset := p }
  | AbKind.ejecta => { st with ejWorkPreset := p }

def AbState.setDefaultPreset (st : AbState) (k : AbKind) (p : AbPreset) : AbState :=
  match k with
  | AbKind.ism => { st with ismDefaultPreset := p }
  | AbKind.ejecta => { st with ejDefaultPreset := p }

/-- The `abundance_window` handler (snr.py lines 271-318).  If a window
of the kind is registered open, only focus is given to it (lines
279-281); otherwise a window is created and registered, focused, its
entries are initialised from the backing dictionary (line 295) and its
`ab_type` dropdown from the session default preset (lines 300-311). -/
def abundance_window (st : AbState) (k : AbKind) : AbState :=
  if st.isOpen k then
    { st with focusCount := st.focusCount + 1 }
  else
    let st1 := st.setOpen k true
    let st2 := st1.setLive k (st1.live k + 1)
    let st3 := st2.setWork k (st2.table k)
    let st4 := st3.setWorkPreset k (st3.defaultPreset k)
    { st4 with focusCount := st4.focusCount + 1 }

/-- The `ab_window_close` handler (snr.py lines 334-355): clear the
open flag, write the working copy back into the backing dictionary,
pop the `ab_type` value into the session default-preset global,
destroy the window, and recompute.  The widget-level `validate` call
for a Return-key close lives in `snr_gui.py` (not under src/) and only
normalises the focused entry of the working copy before it is read. -/
def ab_window_close (st : AbState) (k : AbKind) : AbState :=
  let st1 := st.setOpen k false
  let st2 := st1.setTable k (st1.work k)
  let st3 := st2.setDefaultPreset k (st2.workPreset k)
  let st4 := st3.setLive k (st3.live k - 1)
  { st4 with updates := st4.updates + 1 }

/-- The three ways an open editor closes (snr.py lines 312-316): the
Submit button, the Return key binding, and the WM_DELETE_WINDOW
protocol; all three are bound to `ab_window_close`. -/
inductive ClosePath
  | submit
  | enterKey
  | windowDelete
  deriving DecidableEq, Repr

/-- Dispatch of a close action along any of the three paths, following
the bindings of snr.py lines 312-316. -/
def closeEditor (p : ClosePath) (st : AbState) (k : AbKind) : AbState :=
  match p with
  | ClosePath.submit => ab_window_close st k
  | ClosePath.enterKey => ab_window_close st k
  | ClosePath.windowDelete => ab_window_close st k

/-- User events touching the abundance editors: pressing an open
button, closing along one of the three paths (the close callbacks are
bound to an existing window and cannot fire when none is open), typing
in an element entry (which marks the dropdown Custom, lines 297-298),
and selecting a preset in the dropdown (`reset_ab`, lines 321-331). -/
inductive AbEvent
  | openE (k : AbKind)
  | closeE (p : ClosePath) (k : AbKind)
  | keyEdit (k : AbKind) (i : ℕ) (q : ℚ)
  | choosePreset (k : AbKind) (p : AbPreset)
  deriving DecidableEq, Repr

/-- One step of the abundance-editor state machine. -/
def abStep (st : AbState) (e : AbEvent) : AbState :=
  match e with
  | AbEvent.openE k => abundance_window st k
  | AbEvent.closeE p k => if st.isOpen k then closeEditor p st k else st
  | AbEvent.keyEdit k i q =>
      if st.isOpen k then
        (st.setWork k ((st.work k).set i q)).setWorkPreset k AbPreset.custom
      else st
  | AbEvent.choosePreset k p =>
      if st.isOpen k then
        match presetValues p with
        | some vals => (st.setWorkPreset k p).setWork k vals
        | none => st.setWorkPreset k p
      else st

/-- Initial session state (snr.py lines 450-461): both editors closed,
`ism_ab_type = "LMC"`, `ej_ab_type = "Type Ia"`, and the backing
tables copied from those presets. -/
def abInit : AbState :=
  { ismOpen := false, ejOpen := false
    ismLive := 0, ejLive := 0
    focusCount := 0
    ismTable := [10.94, 8.04, 7.14, 8.35, 7.61, 7.47, 7.81, 6.70, 7.23]
    ejTable := [11.40, 12.60, 7.50, 12.91, 11.04, 11.55, 12.75, 12.43, 13.12]
    ismWork := [10.94, 8.04, 7.14, 8.35, 7.61, 7.47, 7.81, 6.70, 7.23]
    ejWork := [11.40, 12.60, 7.50, 12.91, 11.04, 11.55, 12.75, 12.43, 13.12]
    ismWorkPreset := AbPreset.lmc, ejWorkPreset := AbPreset.typeIa
    ismDefaultPreset := AbPreset.lmc, ejDefaultPreset := AbPreset.typeIa
    updates := 0 }

/-- Session run: fold the events from the initial state. -/
def runAb (evs : List AbEvent) : AbState := evs.foldl abStep abInit

/-- Single-instance invariant: per kind, at most one live window, and
the `ab_window_open` registry flag holds exactly when one is live. -/
def AbInv (st : AbState) : Prop :=
  ∀ k, st.live k ≤ 1 ∧ (st.isOpen k = true ↔ st.live k = 1)

/-! Lemmas and claim theorems. -/

/-! Helper lemmas for the increment controller. -/

lemma ten_le_maxBase (v : ℚ) : (10 : ℚ) ≤ max ((10 : ℚ) ^ Int.log 10 v) 10 :=
  le_max_right _ _

lemma computeIncrement_eq_claimedStep (v : ℚ) (d : ℤ) :
    computeIncrement v d = claimedStep v d := by
  unfold computeIncrement claimedStep
  by_cases hv : 0 < v
  · simp only [if_pos hv]
    have hb := ten_le_maxBase v
    set b := max ((10 : ℚ) ^ Int.log 10 v) 10 with hbdef
    have hne : (b ≠ 10) ↔ (10 < b) := by
      constructor
      · intro h
        exact lt_of_le_of_ne hb (Ne.symm h)
      · intro h
        exact ne_of_gt h
    by_cases h1 : v = b ∧ b ≠ 10 ∧ d = -1
    · rw [if_pos h1, if_pos ⟨h1.2.2, h1.1, hne.mp h1.2.1⟩]
    · rw [if_neg h1, if_neg ?_]
      intro h2
      exact h1 ⟨h2.2.1, hne.mpr h2.2.2, h2.1⟩
  · simp [hv]

/-- Characterisation of `Int.log 10` on rationals, used to evaluate the
embedding on concrete inputs. -/
lemma int_log_eq {q : ℚ} {k : ℤ} (hq : 0 < q) (h1 : (10 : ℚ) ^ k ≤ q)
    (h2 : q < (10 : ℚ) ^ (k + 1)) : Int.log 10 q = k := by
  have ha : k ≤ Int.log 10 q := (Int.zpow_le_iff_le_log (by norm_num) hq).mp (by exact_mod_cast h1)
  have hb : Int.log 10 q < k + 1 :=
    (Int.lt_zpow_iff_log_lt (by norm_num) hq).mp (by exact_mod_cast h2)
  omega

lemma one_le_computeIncrement (v : ℚ) (d : ℤ) : 1 ≤ computeIncrement v d := by
  unfold computeIncrement
  by_cases hv : 0 < v
  · have hb := ten_le_maxBase v
    simp only [if_pos hv]
    split
    · linarith
    · linarith
  · simp [hv]

lemma computeIncrement_pos (v : ℚ) (d : ℤ) : 0 < computeIncrement v d :=
  lt_of_lt_of_le one_pos (one_le_computeIncrement v d)

lemma pyMod_eq_zero_iff {a b : ℚ} (hb : b ≠ 0) : pyMod a b = 0 ↔ isMultipleOf a b := by
  unfold pyMod isMultipleOf
  constructor
  · intro h
    refine ⟨⌊a / b⌋, ?_⟩
    linarith
  · rintro ⟨k, rfl⟩
    have hq : (k : ℚ) * b / b = (k : ℚ) := by
      field_simp
    rw [hq, Int.floor_intCast]
    ring

lemma snappedVal_of_not {old : ℚ} {d : ℤ} (h : ¬ snapCond old d) :
    snappedVal old d = rawNewVal old d := by
  unfold snappedVal
  simp [h]

lemma snappedVal_of_snap_inc {old : ℚ} (h : snapCond old 1) :
    snappedVal old 1 =
      (⌊rawNewVal old 1 / computeIncrement old 1⌋ : ℚ) * computeIncrement old 1 := by
  unfold snappedVal
  simp [h]

lemma snappedVal_of_snap_dec {old : ℚ} (h : snapCond old (-1)) :
    snappedVal old (-1) =
      (⌈rawNewVal old (-1) / computeIncrement old (-1)⌉ : ℚ) * computeIncrement old (-1) := by
  unfold snappedVal
  simp [h]

lemma pyRound_bounds (q : ℚ) :
    (pyRound q : ℚ) - 1/2 ≤ q ∧ q ≤ (pyRound q : ℚ) + 1/2 := by
  have h1 : ((⌊q⌋ : ℤ) : ℚ) ≤ q := Int.floor_le q
  have h2 : q < ⌊q⌋ + 1 := Int.lt_floor_add_one q
  simp only [pyRound]
  split_ifs with ha hb hc <;> constructor <;> push_cast <;> linarith

lemma pyRound_spinboxMaximum : pyRound spinboxMaximum = 100000000 := by
  norm_num [pyRound, spinboxMaximum, Int.floor_eq_iff]

lemma log_region {old : ℚ} (h1 : (100000000 : ℚ) - 1/2 ≤ old)
    (h2 : old ≤ (100000000 : ℚ) + 1/2) :
    Int.log 10 old = 7 ∨ Int.log 10 old = 8 := by
  have hpos : (0 : ℚ) < old := by linarith
  have hlow : (7 : ℤ) ≤ Int.log 10 old := by
    refine (Int.zpow_le_iff_le_log (by norm_num) hpos).mp ?_
    show ((10 : ℕ) : ℚ) ^ (7 : ℤ) ≤ old
    push_cast
    norm_num
    linarith
  have hhigh : Int.log 10 old < 9 := by
    refine (Int.lt_zpow_iff_log_lt (by norm_num) hpos).mp ?_
    show old < ((10 : ℕ) : ℚ) ^ (9 : ℤ)
    push_cast
    norm_num
    linarith
  omega

lemma computeIncrement_inc_region {old : ℚ} (h1 : (100000000 : ℚ) - 1/2 ≤ old)
    (h2 : old ≤ (100000000 : ℚ) + 1/2) :
    computeIncrement old 1 = 10000000 ∨ computeIncrement old 1 = 100000000 := by
  have hpos : (0 : ℚ) < old := by linarith
  rcases log_region h1 h2 with h | h <;>
    [left; right] <;>
    · rw [computeIncrement, if_pos hpos, h]
      norm_num

lemma claimedRaw_eq (old : ℚ) (d : ℤ) : claimedRaw old d = rawNewVal old d := by
  rw [claimedRaw, rawNewVal, computeIncrement_eq_claimedStep]

lemma candidate_eq_claimed_dec (old : ℚ) :
    candidateNewVal old (-1) = claimedNewVal old (-1) := by
  have hb : computeIncrement old (-1) ≠ 0 := ne_of_gt (computeIncrement_pos old (-1))
  have hstep : claimedStep old (-1) = computeIncrement old (-1) :=
    (computeIncrement_eq_claimedStep old (-1)).symm
  have hsnapeq : claimedSnapped old (-1) = snappedVal old (-1) := by
    by_cases hm : isMultipleOf (rawNewVal old (-1)) (computeIncrement old (-1))
    · have hsnap : ¬ snapCond old (-1) := by
        rw [snapCond]
        intro h
        exact h.1 ((pyMod_eq_zero_iff hb).mpr hm)
      rw [claimedSnapped, claimedRaw_eq, hstep, if_neg (fun h => h.1 hm),
        snappedVal_of_not hsnap]
    · have hsnap : snapCond old (-1) := by
        rw [snapCond]
        refine ⟨fun h => hm ((pyMod_eq_zero_iff hb).mp h), fun h => ?_⟩
        exact absurd h.2 (by decide)
      rw [claimedSnapped, claimedRaw_eq, hstep,
        if_pos ⟨hm, fun h => absurd h.2 (by decide)⟩,
        if_neg (show ¬((-1 : ℤ) = 1) by decide), snappedVal_of_snap_dec hsnap]
  rw [candidateNewVal, claimedNewVal, hsnapeq]

lemma candidate_eq_claimed_inc (old : ℚ) :
    candidateNewVal old 1 = claimedNewVal old 1 := by
  have hb : computeIncrement old 1 ≠ 0 := ne_of_gt (computeIncrement_pos old 1)
  have hstep : claimedStep old 1 = computeIncrement old 1 :=
    (computeIncrement_eq_claimedStep old 1).symm
  by_cases hm : isMultipleOf (rawNewVal old 1) (computeIncrement old 1)
  · have hsnap : ¬ snapCond old 1 := by
      rw [snapCond]
      intro h
      exact h.1 ((pyMod_eq_zero_iff hb).mpr hm)
    have h1 : claimedSnapped old 1 = rawNewVal old 1 := by
      rw [claimedSnapped, claimedRaw_eq, hstep, if_neg (fun h => h.1 hm)]
    rw [candidateNewVal, claimedNewVal, h1, snappedVal_of_not hsnap]
  · by_cases hr : pyRound old = pyRound spinboxMaximum
    · have hsnap : ¬ snapCond old 1 := by
        rw [snapCond]
        intro h
        exact h.2 ⟨hr, rfl⟩
      by_cases ho : old = spinboxMaximum
      · have h1 : claimedSnapped old 1 = rawNewVal old 1 := by
          rw [claimedSnapped, claimedRaw_eq, if_neg (fun h => h.2 ⟨ho, rfl⟩)]
        rw [candidateNewVal, claimedNewVal, h1, snappedVal_of_not hsnap]
      · have hbnd := pyRound_bounds old
        rw [hr, pyRound_spinboxMaximum] at hbnd
        have hlo : (100000000 : ℚ) - 1/2 ≤ old := by
          have := hbnd.1
          push_cast at this
          linarith
        have hhi : old ≤ (100000000 : ℚ) + 1/2 := by
          have := hbnd.2
          push_cast at this
          linarith
        have hincv := computeIncrement_inc_region hlo hhi
        have hrawbig : rawNewVal old 1 > spinboxMaximum := by
          rw [rawNewVal]
          simp only [spinboxMaximum]
          rcases hincv with h | h <;> rw [h] <;> push_cast <;> linarith
        have hc : candidateNewVal old 1 = spinboxMaximum := by
          rw [candidateNewVal, snappedVal_of_not hsnap, if_pos hrawbig]
        have hsn : claimedSnapped old 1 =
            (⌊rawNewVal old 1 / computeIncrement old 1⌋ : ℚ) * computeIncrement old 1 := by
          rw [claimedSnapped, claimedRaw_eq, hstep,
            if_pos ⟨hm, fun h => ho h.1⟩, if_pos rfl]
        have hge : spinboxMaximum ≤
            (⌊rawNewVal old 1 / computeIncrement old 1⌋ : ℚ) * computeIncrement old 1 := by
          simp only [spinboxMaximum]
          rcases hincv with h | h <;> rw [h]
          · have hflo : (10 : ℤ) ≤ ⌊rawNewVal old 1 / (10000000 : ℚ)⌋ := by
              rw [Int.le_floor, le_div_iff₀ (by norm_num), rawNewVal, h]
              push_cast
              linarith
            have hflo2 : (10 : ℚ) ≤ (⌊rawNewVal old 1 / (10000000 : ℚ)⌋ : ℚ) := by
              exact_mod_cast hflo
            linarith
          · have hflo : (1 : ℤ) ≤ ⌊rawNewVal old 1 / (100000000 : ℚ)⌋ := by
              rw [Int.le_floor, le_div_iff₀ (by norm_num), rawNewVal, h]
              push_cast
              linarith
            have hflo2 : (1 : ℚ) ≤ (⌊rawNewVal old 1 / (100000000 : ℚ)⌋ : ℚ) := by
              exact_mod_cast hflo
            linarith
        have hcl : claimedNewVal old 1 = spinboxMaximum := by
          rw [claimedNewVal, hsn]
          rcases lt_or_eq_of_le hge with hgt | heq
          · rw [if_pos hgt]
          · rw [if_neg (by rw [← heq]; exact lt_irrefl _), ← heq]
        rw [hc, hcl]
    · have ho : old ≠ spinboxMaximum := fun h => hr (by rw [h])
      have hsnap : snapCond old 1 := by
        rw [snapCond]
        exact ⟨fun h => hm ((pyMod_eq_zero_iff hb).mp h), fun h => hr h.1⟩
      have h1 : claimedSnapped old 1 =
          (⌊rawNewVal old 1 / computeIncrement old 1⌋ : ℚ) * computeIncrement old 1 := by
        rw [claimedSnapped, claimedRaw_eq, hstep, if_pos ⟨hm, fun h => ho h.1⟩, if_pos rfl]
      rw [candidateNewVal, claimedNewVal, h1, snappedVal_of_snap_inc hsnap]

/-- C2: for every arrow increment or decrement action, the value the
handler commits is: raw value old ± step, snapped down (increment) or
up (decrement) to a multiple of the possibly updated step unless the
raw value is already an exact multiple or the old value sits at the
upper bound on an increment, then clamped to the configured upper
bound. -/
theorem claim_C2_new_value (old : ℚ) :
    candidateNewVal old 1 = claimedNewVal old 1 ∧
      candidateNewVal old (-1) = claimedNewVal old (-1) :=
  ⟨candidate_eq_claimed_inc old, candidate_eq_claimed_dec old⟩

lemma forceCustom_val (st : XState) (ax : Axis) : (forceCustom st).val ax = st.val ax := by
  rw [forceCustom]
  split <;> cases ax <;> rfl

lemma forceCustom_rangeMode (st : XState) :
    (forceCustom st).rangeMode = RangeMode.custom := by
  rw [forceCustom]
  split
  · rfl
  · rename_i h
    push_neg at h
    exact h

lemma displayState_val_other (st : XState) (ax : Axis) (d : ℤ) :
    (displayState st ax d).val ax.other = st.val ax.other := by
  rw [displayState, configState]
  cases ax <;>
    simp only [Axis.other, XState.setVal, XState.setInc, XState.val, forceCustom_val] <;>
    split_ifs <;>
    · rw [forceCustom]
      split <;> rfl

lemma displayState_rangeMode (st : XState) (ax : Axis) (d : ℤ) :
    (displayState st ax d).rangeMode = RangeMode.custom := by
  rw [displayState, configState]
  cases ax <;>
    simp only [XState.setVal, XState.setInc, XState.val] <;>
    split_ifs <;>
    exact forceCustom_rangeMode st

lemma displayState_data (st : XState) (ax : Axis) (d : ℤ) (ax2 : Axis) :
    (displayState st ax d).data ax2 = st.data ax2 := by
  rw [displayState, configState]
  cases ax <;> cases ax2 <;>
    simp only [XState.setVal, XState.setInc, XState.data, XState.val] <;>
    split_ifs <;>
    · rw [forceCustom]
      split <;> rfl

lemma displayState_prev (st : XState) (ax : Axis) (d : ℤ) (ax2 : Axis) :
    (displayState st ax d).prev ax2 = st.prev ax2 := by
  rw [displayState, configState]
  cases ax <;> cases ax2 <;>
    simp only [XState.setVal, XState.setInc, XState.prev, XState.val] <;>
    split_ifs <;>
    · rw [forceCustom]
      split <;> rfl

lemma displayState_updates (st : XState) (ax : Axis) (d : ℤ) :
    (displayState st ax d).updates = st.updates := by
  rw [displayState, configState]
  cases ax <;>
    simp only [XState.setVal, XState.setInc, XState.val] <;>
    split_ifs <;>
    · rw [forceCustom]
      split <;> rfl

lemma displayState_replots (st : XState) (ax : Axis) (d : ℤ) :
    (displayState st ax d).replots = st.replots := by
  rw [displayState, configState]
  cases ax <;>
    simp only [XState.setVal, XState.setInc, XState.val] <;>
    split_ifs <;>
    · rw [forceCustom]
      split <;> rfl

lemma displayState_inc_self (st : XState) (ax : Axis) (d : ℤ) :
    (displayState st ax d).inc ax = computeIncrement (st.val ax) d := by
  rw [displayState, configState, forceCustom]
  cases ax <;>
    simp only [XState.setVal, XState.setInc, XState.inc, XState.val] <;>
    split_ifs <;> rfl

lemma configState_rangeMode (st : XState) (ax : Axis) (d : ℤ) :
    (configState st ax d).rangeMode = RangeMode.custom := by
  rw [configState]
  cases ax <;> simp only [XState.setInc] <;> exact forceCustom_rangeMode st

lemma configState_updates (st : XState) (ax : Axis) (d : ℤ) :
    (configState st ax d).updates = st.updates := by
  rw [configState, forceCustom]
  cases ax <;> simp only [XState.setInc] <;> split_ifs <;> rfl

lemma configState_replots (st : XState) (ax : Axis) (d : ℤ) :
    (configState st ax d).replots = st.replots := by
  rw [configState, forceCustom]
  cases ax <;> simp only [XState.setInc] <;> split_ifs <;> rfl

lemma configState_inc_self (st : XState) (ax : Axis) (d : ℤ) :
    (configState st ax d).inc ax = computeIncrement (st.val ax) d := by
  rw [configState, forceCustom]
  cases ax <;> simp only [XState.setInc, XState.inc, XState.val] <;> split_ifs <;> rfl

lemma setData_rangeMode (st : XState) (ax : Axis) (q : ℚ) :
    (st.setData ax q).rangeMode = st.rangeMode := by
  cases ax <;> rfl

lemma setPrev_rangeMode (st : XState) (ax : Axis) (z : ℤ) :
    (st.setPrev ax z).rangeMode = st.rangeMode := by
  cases ax <;> rfl

lemma setData_updates (st : XState) (ax : Axis) (q : ℚ) :
    (st.setData ax q).updates = st.updates := by
  cases ax <;> rfl

lemma setPrev_updates (st : XState) (ax : Axis) (z : ℤ) :
    (st.setPrev ax z).updates = st.updates := by
  cases ax <;> rfl

lemma setData_replots (st : XState) (ax : Axis) (q : ℚ) :
    (st.setData ax q).replots = st.replots := by
  cases ax <;> rfl

lemma setPrev_replots (st : XState) (ax : Axis) (z : ℤ) :
    (st.setPrev ax z).replots = st.replots := by
  cases ax <;> rfl

lemma setData_inc (st : XState) (ax : Axis) (q : ℚ) (ax2 : Axis) :
    (st.setData ax q).inc ax2 = st.inc ax2 := by
  cases ax <;> cases ax2 <;> rfl

lemma setPrev_inc (st : XState) (ax : Axis) (z : ℤ) (ax2 : Axis) :
    (st.setPrev ax z).inc ax2 = st.inc ax2 := by
  cases ax <;> cases ax2 <;> rfl

lemma setData_data_self (st : XState) (ax : Axis) (q : ℚ) :
    (st.setData ax q).data ax = q := by
  cases ax <;> rfl

lemma setPrev_data (st : XState) (ax : Axis) (z : ℤ) (ax2 : Axis) :
    (st.setPrev ax z).data ax2 = st.data ax2 := by
  cases ax <;> cases ax2 <;> rfl

lemma setPrev_prev_self (st : XState) (ax : Axis) (z : ℤ) :
    (st.setPrev ax z).prev ax = z := by
  cases ax <;> rfl

lemma setData_prev (st : XState) (ax : Axis) (q : ℚ) (ax2 : Axis) :
    (st.setData ax q).prev ax2 = st.prev ax2 := by
  cases ax <;> cases ax2 <;> rfl

lemma replotBump_rangeMode (st : XState) :
    ({ st with replots := st.replots + 1 } : XState).rangeMode = st.rangeMode := rfl

lemma increment_xlimits_rangeMode (st : XState) (ax : Axis) (d : ℤ) :
    (increment_xlimits st ax d).rangeMode = RangeMode.custom := by
  cases ax <;>
    simp only [increment_xlimits, displayState, configState, forceCustom, XState.setVal,
      XState.setInc, XState.setData, XState.setPrev, XState.val] <;>
    split_ifs <;> first | rfl | tauto

lemma increment_xlimits_updates (st : XState) (ax : Axis) (d : ℤ) :
    (increment_xlimits st ax d).updates = st.updates := by
  cases ax <;>
    simp only [increment_xlimits, displayState, configState, forceCustom, XState.setVal,
      XState.setInc, XState.setData, XState.setPrev, XState.val] <;>
    split_ifs <;> rfl

lemma increment_xlimits_replots (st : XState) (ax : Axis) (d : ℤ) :
    (increment_xlimits st ax d).replots = st.replots + 1 := by
  cases ax <;>
    simp only [increment_xlimits, displayState, configState, forceCustom, XState.setVal,
      XState.setInc, XState.setData, XState.setPrev, XState.val] <;>
    split_ifs <;> rfl

lemma increment_xlimits_inc_self (st : XState) (ax : Axis) (d : ℤ) :
    (increment_xlimits st ax d).inc ax = computeIncrement (st.val ax) d := by
  cases ax <;>
    simp only [increment_xlimits, displayState, configState, forceCustom, XState.setVal,
      XState.setInc, XState.setData, XState.setPrev, XState.inc, XState.val] <;>
    split_ifs <;> rfl

lemma configState_val (st : XState) (ax : Axis) (d : ℤ) (ax2 : Axis) :
    (configState st ax d).val ax2 = st.val ax2 := by
  rw [configState, forceCustom]
  cases ax <;> cases ax2 <;> simp only [XState.setInc, XState.val] <;> split_ifs <;> rfl

lemma displayState_val_self_of_not {st : XState} {ax : Axis} {d : ℤ}
    (h : ¬ snapCond (st.val ax) d) :
    (displayState st ax d).val ax = st.val ax := by
  simp only [displayState, forceCustom_val]
  rw [if_neg h]
  exact configState_val st ax d ax

lemma displayState_val_self_of_snap {st : XState} {ax : Axis} {d : ℤ}
    (h : snapCond (st.val ax) d) :
    (displayState st ax d).val ax =
      snappedVal (st.val ax) d - (d : ℚ) * computeIncrement (st.val ax) d := by
  simp only [displayState, forceCustom_val]
  rw [if_pos h]
  cases ax <;> rfl

lemma increment_xlimits_of_commit (st : XState) (ax : Axis) (d : ℤ) (hd : d ≠ 0)
    (hc : commitCond (st.val ax) (candidateNewVal (st.val ax) d) d
        (displayState st ax d).xminVal (displayState st ax d).xmaxVal) :
    (increment_xlimits st ax d).data ax = candidateNewVal (st.val ax) d ∧
      (increment_xlimits st ax d).prev ax = pyRound (candidateNewVal (st.val ax) d) ∧
      (increment_xlimits st ax d).data ax.other = st.data ax.other := by
  cases ax with
  | xmin =>
    simp only [increment_xlimits, forceCustom_val]
    rw [if_pos hd, if_pos hc]
    exact ⟨rfl, rfl, displayState_data st Axis.xmin d Axis.xmax⟩
  | xmax =>
    simp only [increment_xlimits, forceCustom_val]
    rw [if_pos hd, if_pos hc]
    exact ⟨rfl, rfl, displayState_data st Axis.xmax d Axis.xmin⟩

lemma increment_xlimits_of_reject (st : XState) (ax : Axis) (d : ℤ) (hd : d ≠ 0)
    (hc : ¬ commitCond (st.val ax) (candidateNewVal (st.val ax) d) d
        (displayState st ax d).xminVal (displayState st ax d).xmaxVal) :
    (∀ ax2, (increment_xlimits st ax d).data ax2 = st.data ax2) ∧
      (∀ ax2, (increment_xlimits st ax d).prev ax2 = st.prev ax2) := by
  cases ax with
  | xmin =>
    simp only [increment_xlimits, forceCustom_val]
    rw [if_pos hd, if_neg hc]
    refine ⟨fun ax2 => ?_, fun ax2 => ?_⟩ <;> cases ax2 with
    | _ =>
      first
        | exact displayState_data st Axis.xmin d Axis.xmin
        | exact displayState_data st Axis.xmin d Axis.xmax
        | exact displayState_prev st Axis.xmin d Axis.xmin
        | exact displayState_prev st Axis.xmin d Axis.xmax
  | xmax =>
    simp only [increment_xlimits, forceCustom_val]
    rw [if_pos hd, if_neg hc]
    refine ⟨fun ax2 => ?_, fun ax2 => ?_⟩ <;> cases ax2 with
    | _ =>
      first
        | exact displayState_data st Axis.xmax d Axis.xmin
        | exact displayState_data st Axis.xmax d Axis.xmax
        | exact displayState_prev st Axis.xmax d Axis.xmin
        | exact displayState_prev st Axis.xmax d Axis.xmax

lemma int_log_100 : Int.log 10 (100 : ℚ) = 2 :=
  int_log_eq (by norm_num) (by norm_num) (by norm_num)

lemma computeIncrement_100_dec : computeIncrement 100 (-1) = 10 := by
  rw [computeIncrement, int_log_100]
  norm_num

lemma rawNewVal_100_dec : rawNewVal 100 (-1) = 90 := by
  rw [rawNewVal, computeIncrement_100_dec]
  norm_num

lemma not_snapCond_100_dec : ¬ snapCond 100 (-1) := by
  rw [snapCond, rawNewVal_100_dec, computeIncrement_100_dec]
  intro h
  exact h.1 (by norm_num [pyMod, Int.floor_eq_iff])

lemma candidateNewVal_100_dec : candidateNewVal 100 (-1) = 90 := by
  rw [candidateNewVal, snappedVal]
  simp only [not_snapCond_100_dec, if_neg, ite_false, rawNewVal_100_dec]
  norm_num [spinboxMaximum]

lemma stepExample_eval :
    increment_xlimits stepExampleState Axis.xmin (-1) =
      { stepExampleState with xminData := 90, xminPrev := 90, xminInc := 10, replots := 1 } := by
  have hcommit : commitCond 100 90 (-1) 100 900 := by
    constructor
    · intro h
      norm_num at h
    · intro h
      rcases h with h | h <;> norm_num at h
  rw [increment_xlimits]
  norm_num [stepExampleState, forceCustom, configState, displayState, XState.val,
    XState.setInc, XState.setVal, XState.setData, XState.setPrev, not_snapCond_100_dec,
    candidateNewVal_100_dec, hcommit, computeIncrement_100_dec, pyRound, Int.floor_eq_iff]

lemma snapCond_intro {old : ℚ} {d : ℤ}
    (h1 : pyMod (rawNewVal old d) (computeIncrement old d) ≠ 0)
    (h2 : ¬(pyRound old = pyRound spinboxMaximum ∧ d = 1)) : snapCond old d := by
  rw [snapCond]
  exact ⟨h1, h2⟩

lemma candidateNewVal_nonneg {old : ℚ} (h0 : 0 ≤ old) {d : ℤ} (hd : d = 1 ∨ d = -1)
    (hne : ¬(old = 0 ∧ d = -1)) : 0 ≤ candidateNewVal old d := by
  have hincpos := computeIncrement_pos old d
  have hsnapnn : 0 ≤ snappedVal old d := by
    rcases hd with rfl | rfl
    · by_cases hs : snapCond old 1
      · rw [snappedVal_of_snap_inc hs]
        have h1 : (1 : ℤ) ≤ ⌊rawNewVal old 1 / computeIncrement old 1⌋ := by
          rw [Int.le_floor, le_div_iff₀ hincpos, rawNewVal]
          push_cast
          linarith
        have h2 : (0 : ℚ) ≤ (⌊rawNewVal old 1 / computeIncrement old 1⌋ : ℚ) := by
          exact_mod_cast le_trans zero_le_one h1
        exact mul_nonneg h2 (le_of_lt hincpos)
      · rw [snappedVal_of_not hs, rawNewVal]
        push_cast
        linarith
    · have hopos : 0 < old := by
        rcases lt_or_eq_of_le h0 with h | h
        · exact h
        · exact absurd ⟨h.symm, rfl⟩ hne
      by_cases hs : snapCond old (-1)
      · rw [snappedVal_of_snap_dec hs]
        have hgt : (-1 : ℚ) < rawNewVal old (-1) / computeIncrement old (-1) := by
          rw [lt_div_iff₀ hincpos, rawNewVal]
          push_cast
          linarith
        have h2 : (-1 : ℤ) < ⌈rawNewVal old (-1) / computeIncrement old (-1)⌉ := by
          have hle := Int.le_ceil (rawNewVal old (-1) / computeIncrement old (-1))
          exact_mod_cast lt_of_lt_of_le hgt hle
        have h3 : (0 : ℚ) ≤ (⌈rawNewVal old (-1) / computeIncrement old (-1)⌉ : ℚ) := by
          have : (0 : ℤ) ≤ ⌈rawNewVal old (-1) / computeIncrement old (-1)⌉ := by omega
          exact_mod_cast this
        exact mul_nonneg h3 (le_of_lt hincpos)
      · have hB : ¬(pyRound old = pyRound spinboxMaximum ∧ (-1 : ℤ) = 1) :=
          fun h => absurd h.2 (by decide)
        have hA : pyMod (rawNewVal old (-1)) (computeIncrement old (-1)) = 0 := by
          by_contra hA
          exact hs (snapCond_intro hA hB)
        obtain ⟨k, hk⟩ := (pyMod_eq_zero_iff (ne_of_gt hincpos)).mp hA
        have hraweq : rawNewVal old (-1) = old - computeIncrement old (-1) := by
          rw [rawNewVal]
          push_cast
          ring
        have hsum : ((k : ℚ) + 1) * computeIncrement old (-1) = old := by
          rw [add_mul, ← hk, hraweq]
          ring
        have hknn : 0 ≤ (k : ℚ) := by
          by_contra hneg
          push_neg at hneg
          have hk1 : (k : ℚ) + 1 ≤ 0 := by
            have hz : k < 0 := by exact_mod_cast hneg
            have hz2 : k + 1 ≤ 0 := by omega
            exact_mod_cast hz2
          have hprod : ((k : ℚ) + 1) * computeIncrement old (-1) ≤ 0 :=
            mul_nonpos_iff.mpr (Or.inr ⟨hk1, le_of_lt hincpos⟩)
          linarith
        rw [snappedVal_of_not hs, hk]
        exact mul_nonneg hknn (le_of_lt hincpos)
  rw [candidateNewVal]
  split_ifs with h
  · norm_num [spinboxMaximum]
  · exact hsnapnn

/-! Concrete evaluations of the increment controller, used below. -/

lemma int_log_90 : Int.log 10 (90 : ℚ) = 1 :=
  int_log_eq (by norm_num) (by norm_num) (by norm_num)

lemma computeIncrement_90_inc : computeIncrement 90 1 = 10 := by
  rw [computeIncrement, int_log_90]
  norm_num

lemma rawNewVal_90_inc : rawNewVal 90 1 = 100 := by
  rw [rawNewVal, computeIncrement_90_inc]
  norm_num

lemma not_snapCond_90_inc : ¬ snapCond 90 1 := by
  rw [snapCond, rawNewVal_90_inc, computeIncrement_90_inc]
  intro h
  exact h.1 (by norm_num [pyMod, Int.floor_eq_iff])

lemma candidateNewVal_90_inc : candidateNewVal 90 1 = 100 := by
  rw [candidateNewVal, snappedVal_of_not not_snapCond_90_inc, rawNewVal_90_inc]
  norm_num [spinboxMaximum]

lemma int_log_95 : Int.log 10 (95 : ℚ) = 1 :=
  int_log_eq (by norm_num) (by norm_num) (by norm_num)

lemma computeIncrement_95_inc : computeIncrement 95 1 = 10 := by
  rw [computeIncrement, int_log_95]
  norm_num

lemma rawNewVal_95_inc : rawNewVal 95 1 = 105 := by
  rw [rawNewVal, computeIncrement_95_inc]
  norm_num

lemma pyRound_95 : pyRound (95 : ℚ) = 95 := by
  norm_num [pyRound, Int.floor_eq_iff]

lemma snapCond_95_inc : snapCond 95 1 := by
  rw [snapCond, rawNewVal_95_inc, computeIncrement_95_inc]
  refine ⟨by norm_num [pyMod, Int.floor_eq_iff], ?_⟩
  rw [pyRound_95, pyRound_spinboxMaximum]
  intro h
  exact absurd h.1 (by norm_num)

lemma snappedVal_95_inc : snappedVal 95 1 = 100 := by
  rw [snappedVal_of_snap_inc snapCond_95_inc, rawNewVal_95_inc, computeIncrement_95_inc]
  norm_num [Int.floor_eq_iff]

lemma candidateNewVal_95_inc : candidateNewVal 95 1 = 100 := by
  rw [candidateNewVal, snappedVal_95_inc]
  norm_num [spinboxMaximum]

lemma computeIncrement_100_inc : computeIncrement 100 1 = 100 := by
  rw [computeIncrement, int_log_100]
  norm_num

lemma rawNewVal_100_inc : rawNewVal 100 1 = 200 := by
  rw [rawNewVal, computeIncrement_100_inc]
  norm_num

lemma not_snapCond_100_inc : ¬ snapCond 100 1 := by
  rw [snapCond, rawNewVal_100_inc, computeIncrement_100_inc]
  intro h
  exact h.1 (by norm_num [pyMod, Int.floor_eq_iff])

lemma candidateNewVal_100_inc : candidateNewVal 100 1 = 200 := by
  rw [candidateNewVal, snappedVal_of_not not_snapCond_100_inc, rawNewVal_100_inc]
  norm_num [spinboxMaximum]

/-- C1: for every current value `v` of a bounded axis editor, the step
size computed on an edit action equals `max(10 ^ floor(log10 v), 10)`
for `v > 0` and `10` for non-positive `v`; when the action is a
decrement and `v` exactly equals a step size above the floor of ten, the
step is divided by ten before being applied, so a decrement from value
100 uses step 10 and yields 90. -/
theorem claim_C1_step_size :
    (∀ (v : ℚ) (d : ℤ), computeIncrement v d = claimedStep v d)
    ∧ computeIncrement 100 (-1) = 10
    ∧ (increment_xlimits stepExampleState Axis.xmin (-1)).xminData = 90 :=
  ⟨computeIncrement_eq_claimedStep, computeIncrement_100_dec, by rw [stepExample_eval]⟩

/-- C3 counterexample: on `c3State` an arrow increment of the minimum
yields candidate value 100 which equals the maximum bound (min would
equal max), yet the handler does change state: the range mode flips
from the named preset to Custom and the stored increment changes, so
the edit is not rejected with no state change at all. -/
theorem claim_C3_counterexample :
    candidateNewVal (c3State.val Axis.xmin) 1 = c3State.val Axis.xmax ∧
    (increment_xlimits c3State Axis.xmin 1).rangeMode ≠ c3State.rangeMode ∧
    (increment_xlimits c3State Axis.xmin 1).inc Axis.xmin ≠ c3State.inc Axis.xmin := by
  refine ⟨?_, ?_, ?_⟩
  · show candidateNewVal 90 1 = (100 : ℚ)
    exact candidateNewVal_90_inc
  · rw [increment_xlimits_rangeMode]
    intro h
    exact absurd h (by decide)
  · rw [increment_xlimits_inc_self]
    show computeIncrement 90 1 ≠ (1 : ℚ)
    rw [computeIncrement_90_inc]
    norm_num

/-- C3 amended: an arrow edit whose candidate value equals the paired
bound displayed value (the edit would make min equal max) does not
commit: the stored bounds, previous markers, and the recompute counter
are unchanged and no model recompute is triggered; however the range
mode is still forced to Custom, the step is still recomputed and
stored, and a replot is still requested. -/
theorem claim_C3_amended (st : XState) (ax : Axis) (d : ℤ) (hd : d ≠ 0)
    (heq : candidateNewVal (st.val ax) d = st.val ax.other) :
    (∀ ax2, (increment_xlimits st ax d).data ax2 = st.data ax2) ∧
    (∀ ax2, (increment_xlimits st ax d).prev ax2 = st.prev ax2) ∧
    (increment_xlimits st ax d).updates = st.updates ∧
    (increment_xlimits st ax d).rangeMode = RangeMode.custom ∧
    (increment_xlimits st ax d).inc ax = computeIncrement (st.val ax) d ∧
    (increment_xlimits st ax d).replots = st.replots + 1 := by
  have hrej : ¬ commitCond (st.val ax) (candidateNewVal (st.val ax) d) d
      (displayState st ax d).xminVal (displayState st ax d).xmaxVal := by
    rw [commitCond]
    intro hcc
    apply hcc.2
    cases ax with
    | xmin =>
      right
      rw [heq]
      exact (displayState_val_other st Axis.xmin d).symm
    | xmax =>
      left
      rw [heq]
      exact (displayState_val_other st Axis.xmax d).symm
  obtain ⟨h1, h2⟩ := increment_xlimits_of_reject st ax d hd hrej
  exact ⟨h1, h2, increment_xlimits_updates st ax d, increment_xlimits_rangeMode st ax d,
    increment_xlimits_inc_self st ax d, increment_xlimits_replots st ax d⟩

theorem claim_C3_amended_witness :
    (increment_xlimits c3wState Axis.xmax (-1)).data Axis.xmax = c3wState.data Axis.xmax ∧
    (increment_xlimits c3wState Axis.xmax (-1)).updates = c3wState.updates ∧
    (increment_xlimits c3wState Axis.xmax (-1)).rangeMode = RangeMode.custom := by
  have h := claim_C3_amended c3wState Axis.xmax (-1) (by decide) (by
    show candidateNewVal 100 (-1) = (90 : ℚ)
    exact candidateNewVal_100_dec)
  exact ⟨h.1 Axis.xmax, h.2.2.1, h.2.2.2.1⟩

/-- C4 counterexample: from minimum 95, maximum 98, an arrow increment
of the minimum commits the value 100, which strictly crosses the
paired maximum bound 98 — so a value that crosses the paired bound can
be committed. -/
theorem claim_C4_counterexample :
    (increment_xlimits c4State Axis.xmin 1).data Axis.xmin = 100 ∧
    c4State.val Axis.xmax = 98 ∧
    (increment_xlimits c4State Axis.xmin 1).data Axis.xmax <
      (increment_xlimits c4State Axis.xmin 1).data Axis.xmin := by
  have hdispMin : (displayState c4State Axis.xmin 1).xminVal = 90 := by
    have h : (displayState c4State Axis.xmin 1).xminVal =
        snappedVal 95 1 - ((1 : ℤ) : ℚ) * computeIncrement 95 1 :=
      @displayState_val_self_of_snap c4State Axis.xmin 1 snapCond_95_inc
    rw [snappedVal_95_inc, computeIncrement_95_inc] at h
    norm_num at h
    exact h
  have hdispMax : (displayState c4State Axis.xmin 1).xmaxVal = 98 :=
    displayState_val_other c4State Axis.xmin 1
  have hc : commitCond (c4State.val Axis.xmin) (candidateNewVal (c4State.val Axis.xmin) 1) 1
      (displayState c4State Axis.xmin 1).xminVal (displayState c4State Axis.xmin 1).xmaxVal := by
    rw [hdispMin, hdispMax, commitCond]
    constructor
    · intro h
      exact absurd h.2 (by decide)
    · show ¬(candidateNewVal 95 1 = 90 ∨ candidateNewVal 95 1 = 98)
      rw [candidateNewVal_95_inc]
      intro h
      rcases h with h | h <;> norm_num at h
  obtain ⟨h1, _, h3⟩ := increment_xlimits_of_commit c4State Axis.xmin 1 (by decide) hc
  refine ⟨?_, rfl, ?_⟩
  · rw [h1]
    show candidateNewVal 95 1 = 100
    exact candidateNewVal_95_inc
  · rw [h1]
    have h3x : (increment_xlimits c4State Axis.xmin 1).data Axis.xmax = 98 := h3
    rw [h3x]
    show (98 : ℚ) < candidateNewVal 95 1
    rw [candidateNewVal_95_inc]
    norm_num

/-- C4 amended: for an arrow edit from a nonnegative displayed value,
a committed value is never negative and never equals the paired bound
displayed value (equality with a bound is always rejected); a value
strictly crossing the paired bound, however, can be committed. -/
theorem claim_C4_amended (st : XState) (ax : Axis) (d : ℤ) (hd : d = 1 ∨ d = -1)
    (h0 : 0 ≤ st.val ax)
    (hc : commitCond (st.val ax) (candidateNewVal (st.val ax) d) d
        (displayState st ax d).xminVal (displayState st ax d).xmaxVal) :
    (increment_xlimits st ax d).data ax = candidateNewVal (st.val ax) d ∧
    0 ≤ candidateNewVal (st.val ax) d ∧
    candidateNewVal (st.val ax) d ≠ st.val ax.other := by
  have hd0 : d ≠ 0 := by
    rcases hd with rfl | rfl <;> decide
  rw [commitCond] at hc
  refine ⟨(increment_xlimits_of_commit st ax d hd0 (by rw [commitCond]; exact hc)).1, ?_, ?_⟩
  · exact candidateNewVal_nonneg h0 hd hc.1
  · intro h
    apply hc.2
    cases ax with
    | xmin =>
      right
      rw [h]
      exact (displayState_val_other st Axis.xmin d).symm
    | xmax =>
      left
      rw [h]
      exact (displayState_val_other st Axis.xmax d).symm

theorem claim_C4_amended_witness :
    (increment_xlimits c4wState Axis.xmin 1).data Axis.xmin = 200 ∧
    (0 : ℚ) ≤ 200 ∧ ((200 : ℚ) ≠ 900) := by
  have hdispMin : (displayState c4wState Axis.xmin 1).xminVal = 100 :=
    @displayState_val_self_of_not c4wState Axis.xmin 1 not_snapCond_100_inc
  have hdispMax : (displayState c4wState Axis.xmin 1).xmaxVal = 900 :=
    displayState_val_other c4wState Axis.xmin 1
  have hc : commitCond (c4wState.val Axis.xmin) (candidateNewVal (c4wState.val Axis.xmin) 1) 1
      (displayState c4wState Axis.xmin 1).xminVal (displayState c4wState Axis.xmin 1).xmaxVal := by
    rw [hdispMin, hdispMax, commitCond]
    constructor
    · intro h
      exact absurd h.2 (by decide)
    · show ¬(candidateNewVal 100 1 = 100 ∨ candidateNewVal 100 1 = 900)
      rw [candidateNewVal_100_inc]
      intro h
      rcases h with h | h <;> norm_num at h
  have h := claim_C4_amended c4wState Axis.xmin 1 (Or.inl rfl)
    (by show (0 : ℚ) ≤ 100; norm_num) hc
  refine ⟨?_, by norm_num, by norm_num⟩
  have h1 := h.1
  rw [show candidateNewVal (c4wState.val Axis.xmin) 1 = 200 from candidateNewVal_100_inc] at h1
  exact h1

/-- C10: on every axis bound edit, committed or not, the range mode is
forced to Custom, the increment is recomputed and stored on the
widget, a replot is requested, and no model recompute is triggered;
when an arrow edit fails the commit guard only the stored bound value
(and its previous marker) is left unchanged. -/
theorem claim_C10_frame_effects (st : XState) (ax : Axis) (d : ℤ) :
    (increment_xlimits st ax d).rangeMode = RangeMode.custom ∧
    (increment_xlimits st ax d).inc ax = computeIncrement (st.val ax) d ∧
    (increment_xlimits st ax d).replots = st.replots + 1 ∧
    (increment_xlimits st ax d).updates = st.updates ∧
    (d ≠ 0 →
      ¬ commitCond (st.val ax) (candidateNewVal (st.val ax) d) d
          (displayState st ax d).xminVal (displayState st ax d).xmaxVal →
      (increment_xlimits st ax d).data ax = st.data ax) :=
  ⟨increment_xlimits_rangeMode st ax d, increment_xlimits_inc_self st ax d,
   increment_xlimits_replots st ax d, increment_xlimits_updates st ax d,
   fun hd hc => (increment_xlimits_of_reject st ax d hd hc).1 ax⟩

theorem claim_C10_witness :
    (increment_xlimits w10State Axis.xmin 1).rangeMode = RangeMode.custom ∧
    (increment_xlimits w10State Axis.xmin 1).data Axis.xmin = w10State.data Axis.xmin := by
  have h := claim_C10_frame_effects w10State Axis.xmin 1
  refine ⟨h.1, h.2.2.2.2 (by decide) ?_⟩
  rw [commitCond]
  intro hcc
  apply hcc.2
  right
  have hdm : (displayState w10State Axis.xmin 1).xmaxVal = 100 :=
    displayState_val_other w10State Axis.xmin 1
  rw [hdm]
  show candidateNewVal 90 1 = (100 : ℚ)
  exact candidateNewVal_90_inc

/-- C5: on every transition of the ambient-index discriminant to
nonzero, the ejecta-index domain contracts to the four-value set
{0, 1, 2, 7}; a current value outside that domain is forcibly reset to
its minimum element 0, and the reset happens before the dependent
recompute is triggered: the `n` value logged by the recompute is the
already-reset member of the narrow domain. -/
theorem claim_C5_domain_contraction (st : SState) (hs : st.s ≠ 0) :
    (s_change st true).nValues = [0, 1, 2, 7] ∧
    (s_change st true).n ∈ [0, 1, 2, 7] ∧
    (st.n ∉ ([0, 1, 2, 7] : List ℕ) → (s_change st true).n = 0) ∧
    (st.n ∈ ([0, 1, 2, 7] : List ℕ) → (s_change st true).n = st.n) ∧
    (s_change st true).recomputeLog = st.recomputeLog ++ [(s_change st true).n] := by
  rw [s_change, if_neg hs]
  by_cases hn : st.n ∈ nNarrowValues
  · rw [if_pos hn]
    refine ⟨rfl, ?_, ?_, fun _ => rfl, rfl⟩
    · exact hn
    · intro hcon
      exact absurd hn hcon
  · rw [if_neg hn]
    refine ⟨rfl, ?_, fun _ => rfl, ?_, rfl⟩
    · show (0 : ℕ) ∈ [0, 1, 2, 7]
      decide
    · intro hmem
      exact absurd hmem hn

theorem claim_C5_witness :
    (s_change c5wState true).nValues = [0, 1, 2, 7] ∧
    (s_change c5wState true).n = 0 ∧
    (s_change c5wState true).recomputeLog = [0] := by
  have h := claim_C5_domain_contraction c5wState (by decide)
  refine ⟨h.1, h.2.2.1 (by decide), ?_⟩
  have hlog := h.2.2.2.2
  rw [h.2.2.1 (by decide)] at hlog
  exact hlog

lemma toggleS_zero_windVisible (st : SState) : (toggleS st 0).windVisible = false := by
  simp only [toggleS, s_change]
  split_ifs <;> first | rfl | simp_all

lemma toggleS_zero_n (st : SState) : (toggleS st 0).n = if st.n = 1 then 0 else st.n := by
  simp only [toggleS, s_change]
  split_ifs <;> first | rfl | simp_all

lemma toggleS_nonzero_windVisible (st : SState) : (toggleS st 2).windVisible = true := by
  simp only [toggleS, s_change]
  split_ifs <;> first | rfl | simp_all

lemma toggleS_nonzero_n (st : SState) :
    (toggleS st 2).n = if st.n ∈ nNarrowValues then st.n else 0 := by
  simp only [toggleS, s_change]
  split_ifs <;> first | rfl | simp_all

/-- C6: toggling the ambient-index discriminant from zero to nonzero
and back to zero restores the wind-parameter visibility exactly, and
restores the ejecta-index value when it was a member of the narrow
domain before the round trip; otherwise the value remains at the
forced fallback 0.  The starting zero-state is any state produced by
the zero rule. -/
theorem claim_C6_round_trip (st : SState) :
    (toggleS (toggleS (toggleS st 0) 2) 0).windVisible = (toggleS st 0).windVisible ∧
    (toggleS (toggleS (toggleS st 0) 2) 0).n =
      (if (toggleS st 0).n ∈ ([0, 1, 2, 7] : List ℕ) then (toggleS st 0).n else 0) := by
  constructor
  · rw [toggleS_zero_windVisible, toggleS_zero_windVisible]
  · rw [toggleS_zero_n, toggleS_nonzero_n, toggleS_zero_n]
    by_cases h1 : st.n = 1
    · simp [h1, nNarrowValues]
    · by_cases h2 : st.n ∈ nNarrowValues
      · have h2l : st.n ∈ ([0, 1, 2, 7] : List ℕ) := h2
        simp [h1, h2, h2l, nNarrowValues]
      · have h2l : st.n ∉ ([0, 1, 2, 7] : List ℕ) := h2
        simp [h1, h2, h2l, nNarrowValues]

lemma model_change_ttw_away {st : MState} (h : st.model ≠ ModelKind.tw) :
    (model_change st true).ttwEnabled = false ∧
    (model_change st true).ttwDisplay = TtwDisplay.na ∧
    (model_change st true).ttwPrevious = st.ttwPrevious ∧
    (model_change st true).ttwVisible = false := by
  simp only [model_change]
  split_ifs <;> simp_all

lemma model_change_ttw_to {st : MState} (h : st.model = ModelKind.tw) :
    (model_change st true).ttwEnabled = true ∧
    (model_change st true).ttwDisplay = TtwDisplay.shown st.ttwPrevious ∧
    (model_change st true).ttwVisible = true := by
  simp only [model_change]
  split_ifs <;> simp_all

/-- C9: switching the model variant away from hot-low-density-media
(`tw`) disables the end-time input and displays the sentinel `N/A`
while keeping the stored last-valid value; switching back to `tw`
re-enables the input and reverts the display to that stored pre-hide
value (whatever it was, not a fixed default). -/
theorem claim_C9_ttw_round_trip (st : MState) (m : ModelKind) (hm : m ≠ ModelKind.tw) :
    (model_change { st with model := m } true).ttwEnabled = false ∧
    (model_change { st with model := m } true).ttwDisplay = TtwDisplay.na ∧
    (model_change { st with model := m } true).ttwPrevious = st.ttwPrevious ∧
    (model_change { (model_change { st with model := m } true) with
        model := ModelKind.tw } true).ttwEnabled = true ∧
    (model_change { (model_change { st with model := m } true) with
        model := ModelKind.tw } true).ttwDisplay = TtwDisplay.shown st.ttwPrevious := by
  obtain ⟨h1, h2, h3, h4⟩ := @model_change_ttw_away { st with model := m } hm
  obtain ⟨g1, g2, g3⟩ := @model_change_ttw_to
    { (model_change { st with model := m } true) with model := ModelKind.tw } rfl
  refine ⟨h1, h2, h3, g1, ?_⟩
  rw [g2]
  show TtwDisplay.shown ((model_change { st with model := m } true).ttwPrevious) = _
  rw [h3]

theorem claim_C9_witness :
    (model_change { c9wState with model := ModelKind.cf } true).ttwDisplay = TtwDisplay.na ∧
    (model_change { (model_change { c9wState with model := ModelKind.cf } true) with
        model := ModelKind.tw } true).ttwDisplay = TtwDisplay.shown 400000 := by
  have h := claim_C9_ttw_round_trip c9wState ModelKind.cf (by decide)
  exact ⟨h.2.1, h.2.2.2.2⟩

lemma abInit_inv : AbInv abInit := by
  intro k
  cases k <;> simp [abInit, AbState.live, AbState.isOpen]

lemma abStep_inv {st : AbState} (h : AbInv st) (e : AbEvent) : AbInv (abStep st e) := by
  have h1 := h AbKind.ism
  have h2 := h AbKind.ejecta
  intro k2
  cases e with
  | openE k =>
    cases k <;> cases k2 <;>
      simp only [abStep, abundance_window, AbState.isOpen, AbState.live, AbState.setOpen,
        AbState.setLive, AbState.setWork, AbState.setWorkPreset, AbState.table,
        AbState.defaultPreset] at h1 h2 ⊢ <;>
      split_ifs <;> simp_all <;> omega
  | closeE p k =>
    have he : ∀ s, closeEditor p s k = ab_window_close s k := by
      intro s
      cases p <;> rfl
    cases k <;> cases k2 <;>
      simp only [abStep, he, ab_window_close, AbState.isOpen, AbState.live, AbState.setOpen,
        AbState.setLive, AbState.setTable, AbState.setDefaultPreset, AbState.work,
        AbState.workPreset] at h1 h2 ⊢ <;>
      split_ifs <;> simp_all <;> omega
  | keyEdit k i q =>
    cases k <;> cases k2 <;>
      simp only [abStep, AbState.isOpen, AbState.live, AbState.setWork, AbState.setWorkPreset,
        AbState.work] at h1 h2 ⊢ <;>
      split_ifs <;> simp_all
  | choosePreset k p =>
    cases k <;> cases k2 <;>
      simp only [abStep, AbState.isOpen, AbState.live, AbState.setWork, AbState.setWorkPreset]
        at h1 h2 ⊢ <;>
      rcases presetValues p with _ | vals <;>
      split_ifs <;> simp_all

lemma runAb_inv (evs : List AbEvent) : AbInv (runAb evs) := by
  rw [runAb]
  suffices hgen : ∀ s : AbState, AbInv s → AbInv (evs.foldl abStep s) from hgen abInit abInit_inv
  induction evs with
  | nil =>
    intro s hs
    exact hs
  | cons e tl ih =>
    intro s hs
    exact ih (abStep s e) (abStep_inv hs e)

/-- C7: in every reachable session state, each abundance-table kind
has at most one live editor window; pressing the open button while the
editor of that kind is open creates no second window and changes
nothing except giving focus (one focus event). -/
theorem claim_C7_single_instance (evs : List AbEvent) (k : AbKind) :
    (runAb evs).live k ≤ 1 ∧
    ((runAb evs).isOpen k = true →
      abundance_window (runAb evs) k =
        { runAb evs with focusCount := (runAb evs).focusCount + 1 }) := by
  refine ⟨(runAb_inv evs k).1, fun hop => ?_⟩
  rw [abundance_window, if_pos hop]

theorem claim_C7_witness :
    (runAb [AbEvent.openE AbKind.ism]).live AbKind.ism ≤ 1 ∧
    abundance_window (runAb [AbEvent.openE AbKind.ism]) AbKind.ism =
      { runAb [AbEvent.openE AbKind.ism] with
          focusCount := (runAb [AbEvent.openE AbKind.ism]).focusCount + 1 } := by
  have h := claim_C7_single_instance [AbEvent.openE AbKind.ism] AbKind.ism
  exact ⟨h.1, h.2 rfl⟩

/-- C8: every close path of an open abundance editor — Submit button,
Return key, or window close — invokes the same commit: the working
copy is written back to the backing table, the selected preset becomes
the session default preset for that kind, the single-instance slot is
released (registry flag cleared, live count decremented), and a
recompute is requested. -/
theorem claim_C8_close_commits (p : ClosePath) (st : AbState) (k : AbKind) :
    closeEditor p st k = ab_window_close st k ∧
    (closeEditor p st k).table k = st.work k ∧
    (closeEditor p st k).defaultPreset k = st.workPreset k ∧
    (closeEditor p st k).isOpen k = false ∧
    (closeEditor p st k).live k = st.live k - 1 ∧
    (closeEditor p st k).updates = st.updates + 1 := by
  have he : closeEditor p st k = ab_window_close st k := by
    cases p <;> rfl
  rw [he]
  refine ⟨rfl, ?_, ?_, ?_, ?_, ?_⟩ <;> cases k <;> rfl

end SNR

